import Mathlib

/-!
Verification of the movement/AI/collision core of the tile-based maze-chase
game in src/PacManRealFinal.py, as a shallow embedding in Lean 4.

Modelling conventions:
* Tile coordinates and timers are `Int` (Python ints).
* Pixel coordinates and speeds are `ℚ` (Python floats hold values such as
  2.2 and 0.6 that are intended as exact decimals; the model uses the exact
  rationals).
* `TILE`, `OFFSET_X`, `OFFSET_Y` are screen-dependent at runtime
  (fullscreen adaptation), so every definition that needs them takes them
  as explicit `Int` parameters (named TILE, OX, OY).
* Comparisons of a Euclidean norm `math.hypot(vx,vy) < c` with a positive
  bound are embedded in the exact squared form `vx^2+vy^2 < c^2`
  (the lemma `hypot_lt_iff_sq` below proves the two forms equivalent);
  the pixel-glide step of `update_position_pixels`, which divides by the
  norm, is embedded as a step relation whose glide clause states the exact
  real-number equation.
* Python `%` on ints with a positive modulus agrees with `Int.emod`.
-/

namespace PacMan

/-- The maze layout, copied verbatim from `MAZE` in PacManRealFinal.py. -/
def MAZE : List String := [
  "############################",
  "#............##............#",
  "#.####.#####.##.#####.####.#",
  "#o####.#####.##.#####.####o#",
  "#.####.#####.##.#####.####.#",
  "#..........................#",
  "#.####.##.########.##.####.#",
  "#.####.##.########.##.####.#",
  "#......##....##....##......#",
  "######.#####.##.#####.######",
  "     #.#####.##.#####.#     ",
  "     #.##          ##.#     ",
  "     #.## ###--### ##.#     ",
  "######.## #      # ##.######",
  "      .   # GG   #   .      ",
  "######.## #      # ##.######",
  "     #.## ######## ##.#     ",
  "     #.##          ##.#     ",
  "     #.## ######## ##.#     ",
  "######.## ######## ##.######",
  "#............##............#",
  "#.####.#####.##.#####.####.#",
  "#.####.#####.##.#####.####.#",
  "#o..##................##..o#",
  "###.##.##.########.##.##.###",
  "###.##.##.########.##.##.###",
  "#......##....##....##......#",
  "#.##########.##.##########.#",
  "#.##########.##.##########.#",
  "#..........................#",
  "############################"]

/-- Embeds `MAZE_W = len(MAZE[0])`. -/
def MAZE_W : Int := Int.ofNat (MAZE.headD ("")).length

/-- Embeds `MAZE_H = len(MAZE)`. -/
def MAZE_H : Int := Int.ofNat MAZE.length

/-- Embeds `FPS = 60`. -/
def FPS : Int := 60

/-- Embeds `FRIGHT_DURATION = 8 * FPS`. -/
def FRIGHT_DURATION : Int := 8 * FPS

/-- Embeds `in_bounds(x,y)`: `0 <= x < MAZE_W and 0 <= y < MAZE_H`. -/
def in_bounds (x y : Int) : Bool :=
  decide (0 ≤ x) && decide (x < MAZE_W) && decide (0 ≤ y) && decide (y < MAZE_H)

/-- The maze character `MAZE[y][x]`; callers (`is_wall`, `is_open`) guard by
`in_bounds`, the defaults are never reached in-bounds. -/
def mazeChar (x y : Int) : Char :=
  ((MAZE.getD y.toNat ("")).toList.getD x.toNat '#')

/-- Embeds `is_wall(x,y)`: `True` out of bounds, else `MAZE[y][x] == '#'`. -/
def is_wall (x y : Int) : Bool :=
  if in_bounds x y then mazeChar x y == '#' else true

/-- Embeds `is_open(x,y)`: `False` out of bounds, else `MAZE[y][x] != '#'`. -/
def is_open (x y : Int) : Bool :=
  if in_bounds x y then mazeChar x y != '#' else false

/-- Embeds `tile_center_pixel(tx,ty)`; `TILE // 2` is Python floor division, which
agrees with `Int` division for the nonnegative TILE used by the game. -/
def tile_center_pixel (TILE OX OY tx ty : Int) : Int × Int :=
  (OX + tx * TILE + TILE / 2, OY + ty * TILE + TILE / 2)

/-- The mover state of `TileMover` (shared by Pac-Man and ghosts):
tile coordinate, pixel position, direction, queued direction, transit flag,
speed, and warp state. -/
structure Mover where
  tx : Int
  ty : Int
  px : ℚ
  py : ℚ
  dx : Int
  dy : Int
  next_dx : Int
  next_dy : Int
  moving : Bool
  speed : ℚ
  warping : Bool
  warp_target : Option (Int × Int)
deriving DecidableEq

/-- Embeds `TileMover.__init__(tile)`: pixel position at the tile center, no
direction, not moving, speed 2.2, no warp. -/
def Mover.make (TILE OX OY : Int) (tile : Int × Int) : Mover :=
  { tx := tile.1
    ty := tile.2
    px := ((tile_center_pixel TILE OX OY tile.1 tile.2).1 : ℚ)
    py := ((tile_center_pixel TILE OX OY tile.1 tile.2).2 : ℚ)
    dx := 0
    dy := 0
    next_dx := 0
    next_dy := 0
    moving := false
    speed := 11 / 5
    warping := false
    warp_target := none }

/-- Embeds `TileMover.at_center`: pixel position within 1.0 of the tile center on
both axes. -/
def at_center (TILE OX OY : Int) (m : Mover) : Bool :=
  decide (|m.px - ((tile_center_pixel TILE OX OY m.tx m.ty).1 : ℚ)| < 1) &&
  decide (|m.py - ((tile_center_pixel TILE OX OY m.tx m.ty).2 : ℚ)| < 1)

/-- Embeds `TileMover.start_move(dx,dy)`: returns the Python return value together
with the updated mover.  The destination-open case commits the move and
clears warp state; the horizontal wrap case (`dy == 0` and the destination
out of bounds or not open) commits the move with `warp_target` set to the
x-mod-width wrapped tile when that tile is open; otherwise the mover is
returned unchanged with `False`. -/
def start_move (m : Mover) (dx dy : Int) : Bool × Mover :=
  let nx := m.tx + dx
  let ny := m.ty + dy
  if is_open nx ny then
    (true, { m with dx := dx, dy := dy, moving := true,
                    warping := false, warp_target := none })
  else if dy = 0 ∧ (nx < 0 ∨ MAZE_W ≤ nx ∨ is_open nx ny = false) then
    let wrapped_x := nx % MAZE_W
    if is_open wrapped_x ny then
      (true, { m with dx := dx, dy := dy, moving := true,
                      warping := true, warp_target := some (wrapped_x, ny) })
    else (false, m)
  else (false, m)

/-- The pixel target of the current transit: the tile center of
`(tx+dx, ty+dy)`, as rational pixel coordinates. -/
def pixel_target (TILE OX OY : Int) (m : Mover) : ℚ × ℚ :=
  (((tile_center_pixel TILE OX OY (m.tx + m.dx) (m.ty + m.dy)).1 : ℚ),
   ((tile_center_pixel TILE OX OY (m.tx + m.dx) (m.ty + m.dy)).2 : ℚ))

/-- The arrival test of `update_position_pixels`:
`math.hypot(vx,vy) <= speed`, stated with the genuine Euclidean norm. -/
def arrived (TILE OX OY : Int) (m : Mover) : Prop :=
  Real.sqrt ((((pixel_target TILE OX OY m).1 - m.px : ℚ) : ℝ) ^ 2 +
             (((pixel_target TILE OX OY m).2 - m.py : ℚ) : ℝ) ^ 2) ≤ ((m.speed : ℚ) : ℝ)

/-- The state after the warp-arrival snap of `update_position_pixels`
(before the automatic `start_move` re-invocation): tile and pixels snapped
to the warp target center, warp state and transit flag cleared. -/
def warp_snap (TILE OX OY : Int) (m : Mover) (w : Int × Int) : Mover :=
  { m with tx := w.1, ty := w.2,
           px := ((tile_center_pixel TILE OX OY w.1 w.2).1 : ℚ),
           py := ((tile_center_pixel TILE OX OY w.1 w.2).2 : ℚ),
           warping := false, warp_target := none, moving := false }

/-- The complete warp-arrival state of `update_position_pixels`: the snap
followed by `start_move(dx, dy)` with the same direction. -/
def warp_arrive_state (TILE OX OY : Int) (m : Mover) (w : Int × Int) : Mover :=
  (start_move (warp_snap TILE OX OY m w) m.dx m.dy).2

/-- The normal (non-warp) arrival state of `update_position_pixels`:
tile advanced by the direction, pixels snapped exactly to the destination
center, transit flag cleared. -/
def arrive_normal_state (TILE OX OY : Int) (m : Mover) : Mover :=
  { m with tx := m.tx + m.dx, ty := m.ty + m.dy,
           px := (pixel_target TILE OX OY m).1,
           py := (pixel_target TILE OX OY m).2,
           moving := false }

/-- The not-yet-arrived glide step of `update_position_pixels`: pixels move
by `speed` along the normalized vector toward the target; everything else
is unchanged.  The normalization divides by `math.hypot(vx,vy)`, so the two
pixel equations are stated over ℝ in product form. -/
def glide_rel (TILE OX OY : Int) (m mv : Mover) : Prop :=
  mv.tx = m.tx ∧ mv.ty = m.ty ∧ mv.dx = m.dx ∧ mv.dy = m.dy ∧
  mv.next_dx = m.next_dx ∧ mv.next_dy = m.next_dy ∧
  mv.moving = m.moving ∧ mv.speed = m.speed ∧
  mv.warping = m.warping ∧ mv.warp_target = m.warp_target ∧
  ((mv.px - m.px : ℚ) : ℝ) *
      Real.sqrt ((((pixel_target TILE OX OY m).1 - m.px : ℚ) : ℝ) ^ 2 +
                 (((pixel_target TILE OX OY m).2 - m.py : ℚ) : ℝ) ^ 2)
    = ((m.speed : ℚ) : ℝ) * (((pixel_target TILE OX OY m).1 - m.px : ℚ) : ℝ) ∧
  ((mv.py - m.py : ℚ) : ℝ) *
      Real.sqrt ((((pixel_target TILE OX OY m).1 - m.px : ℚ) : ℝ) ^ 2 +
                 (((pixel_target TILE OX OY m).2 - m.py : ℚ) : ℝ) ^ 2)
    = ((m.speed : ℚ) : ℝ) * (((pixel_target TILE OX OY m).2 - m.py : ℚ) : ℝ)

/-- Embeds `TileMover.update_position_pixels` as a step relation on mover states:
no-op when not moving; on arrival (`hypot <= speed`) either the warp snap
followed by the automatic same-direction `start_move`, or the normal
tile advance with an exact snap; otherwise the glide step. -/
inductive update_position_pixels (TILE OX OY : Int) : Mover → Mover → Prop
  | idle (m : Mover) : m.moving = false → update_position_pixels TILE OX OY m m
  | arrive_warp (m : Mover) (w : Int × Int) :
      m.moving = true → m.warping = true → m.warp_target = some w →
      arrived TILE OX OY m →
      update_position_pixels TILE OX OY m (warp_arrive_state TILE OX OY m w)
  | arrive_normal (m : Mover) :
      m.moving = true → (m.warping = true → m.warp_target = none) →
      arrived TILE OX OY m →
      update_position_pixels TILE OX OY m (arrive_normal_state TILE OX OY m)
  | glide (m mv : Mover) :
      m.moving = true → ¬ arrived TILE OX OY m → glide_rel TILE OX OY m mv →
      update_position_pixels TILE OX OY m mv

/-- The ghost mode tag; the source stores the strings
"scatter" / "chase" / "frightened" / "eyes". -/
inductive Mode where
  | scatter
  | chase
  | frightened
  | eyes
deriving DecidableEq

/-- The Pac-Man state (`Pacman.__init__`): a mover (speed 2.6) plus lives,
score, alive flag and respawn timer.  `radius` is rendering-only and is
not modelled. -/
structure Pacman extends Mover where
  lives : Int
  score : Int
  alive : Bool
  respawn_timer : Int
deriving DecidableEq

/-- Embeds `Pacman.die`: decrement lives, clear alive, start the 2-second respawn
countdown. -/
def Pacman.die (p : Pacman) : Pacman :=
  { p with lives := p.lives - 1, alive := false, respawn_timer := 2 * FPS }

/-- The ghost state (`Ghost.__init__`): a mover plus identity index, mode,
dead (eyes) flag, frightened countdown, the four per-mode speeds and start
tile. -/
structure Ghost extends Mover where
  idx : Nat
  mode : Mode
  dead : Bool
  fright_timer : Int
  speed_chase : ℚ
  speed_scatter : ℚ
  speed_fright : ℚ
  speed_eyes : ℚ
  start_tile : Int × Int
deriving DecidableEq

/-- Embeds `Ghost.kill_and_become_eyes`: set dead, mode eyes, clear direction,
transit flag and warp state.  The pixel position is left unchanged. -/
def kill_and_become_eyes (g : Ghost) : Ghost :=
  { g with dead := true, mode := Mode.eyes, dx := 0, dy := 0,
           moving := false, warping := false, warp_target := none }

/-- The opening frightened-countdown block of `Ghost.update` (lines
377-380): while frightened and not dead, decrement the timer and, when it
reaches zero, set the mode to `"chase"`. -/
def update_fright (g : Ghost) : Ghost :=
  if g.mode = Mode.frightened ∧ g.dead = false then
    if g.fright_timer - 1 ≤ 0 then
      { g with fright_timer := g.fright_timer - 1, mode := Mode.chase }
    else
      { g with fright_timer := g.fright_timer - 1 }
  else g

/-- The axis-direction enumeration `[(1,0),(-1,0),(0,1),(0,-1)]` used at
ghost decision points: right, left, down, up. -/
def DIRS : List (Int × Int) := [(1, 0), (-1, 0), (0, 1), (0, -1)]

/-- The candidate directions of `Ghost.choose_direction_toward` (and of the
identical loop in `Ghost.update`): axis directions whose destination tile
is open and that are not the exact reverse of the current direction. -/
def ghostCandidates (g : Ghost) : List (Int × Int) :=
  DIRS.filter (fun d =>
    is_open (g.tx + d.1) (g.ty + d.2) &&
    !((-d.1, -d.2) == (g.dx, g.dy)))

/-- The squared Euclidean distance from the destination tile of direction
`d` to `target`, as computed in `choose_direction_toward`. -/
def distSq (g : Ghost) (target d : Int × Int) : Int :=
  (g.tx + d.1 - target.1) * (g.tx + d.1 - target.1) +
  (g.ty + d.2 - target.2) * (g.ty + d.2 - target.2)

/-- The best/bestd selection loop of `choose_direction_toward`:
`best=None; bestd=1e9; for d in choices: if dist < bestd: best, bestd = d, dist`.
The squared distances are ints, so the comparison with the float `1e9`
is exactly the comparison with `10^9`. -/
def chooseLoop (f : Int × Int → Int) :
    List (Int × Int) → Option (Int × Int) → Int → Option (Int × Int)
  | [], best, _ => best
  | d :: rest, best, bestd =>
      if f d < bestd then chooseLoop f rest (some d) (f d)
      else chooseLoop f rest best bestd

/-- Embeds `Ghost.choose_direction_toward(target)`: among the non-reversing open
candidates (falling back to the reverse direction when there are none),
select with the best/bestd loop and commit the result to `dx, dy`
(a `None` result, Python-falsy, leaves the direction unchanged; a tuple
result, always truthy, is committed). -/
def choose_direction_toward (g : Ghost) (target : Int × Int) : Ghost :=
  let choices :=
    if ghostCandidates g = [] then [(-g.dx, -g.dy)] else ghostCandidates g
  match chooseLoop (distSq g target) choices none (10 ^ 9) with
  | some b => { g with dx := b.1, dy := b.2 }
  | none => g

/-- Modelled from the claim sentence for C1 (a reference definition, to be
compared with `choose_direction_toward`): enumerate the candidates in the
order right, left, down, up, excluding the exact reverse and non-open
destinations; pick the earliest candidate whose squared distance to the
target is minimal; choose the reverse direction only when the candidate
set is empty. -/
def specChooseDirection (g : Ghost) (target : Int × Int) : Ghost :=
  let cands := ghostCandidates g
  match cands.find? (fun c =>
      decide (∀ x ∈ cands, distSq g target c ≤ distSq g target x)) with
  | some b => { g with dx := b.1, dy := b.2 }
  | none => { g with dx := -g.dx, dy := -g.dy }

/-- Embeds `MODE_SEQUENCE`: the fixed (mode, duration-in-seconds) schedule. -/
def MODE_SEQUENCE : List (Mode × Int) :=
  [(Mode.scatter, 7), (Mode.chase, 20), (Mode.scatter, 7), (Mode.chase, 20),
   (Mode.scatter, 5), (Mode.chase, 20), (Mode.scatter, 5), (Mode.chase, 9999)]

/-- The mode the scheduler cursor currently designates:
`MODE_SEQUENCE[mode_index][0]` (the index is always in range in the game;
the `getD` default is never reached there). -/
def schedulerMode (mode_index : Nat) : Mode :=
  (MODE_SEQUENCE.getD mode_index (Mode.chase, 0)).1

/-- The per-tick mode-timer step of the main loop:
`mode_timer -= 1; if mode_timer <= 0: mode_index = (mode_index+1) % len(MODE_SEQUENCE);
mode_timer = sec * FPS`.  Returns the new `(mode_index, mode_timer)` (the
accompanying `set_global_mode` broadcast acts on the ghosts, not on this
pair). -/
def modeTimerStep (mode_index : Nat) (mode_timer : Int) : Nat × Int :=
  if mode_timer - 1 ≤ 0 then
    let i := (mode_index + 1) % MODE_SEQUENCE.length
    (i, (MODE_SEQUENCE.getD i (Mode.chase, 0)).2 * FPS)
  else (mode_index, mode_timer - 1)

/-- Embeds `set_global_mode(mode)`: broadcast to every ghost not currently
frightened or eyes. -/
def set_global_mode (mode : Mode) (ghosts : List Ghost) : List Ghost :=
  ghosts.map (fun g =>
    if g.mode ≠ Mode.frightened ∧ g.mode ≠ Mode.eyes then { g with mode := mode }
    else g)

/-- The ghost start tiles parsed from the `'G'` characters of `MAZE`. -/
def parsedGhostStarts : List (Int × Int) :=
  (List.range MAZE.length).flatMap (fun y =>
    (List.range ((MAZE.getD y ("")).length)).filterMap (fun x =>
      if (MAZE.getD y ("")).toList.getD x '#' == 'G'
      then some ((Int.ofNat x, Int.ofNat y)) else none))

/-- Embeds `ghost_starts`: the parsed `'G'` tiles, replaced by the fixed fallback
list when fewer than four were parsed (the shipped maze has only two `'G'`
characters, so the fallback is used). -/
def ghost_starts : List (Int × Int) :=
  if parsedGhostStarts.length < 4
  then [(13, 14), (14, 14), (12, 14), (15, 14)]
  else parsedGhostStarts

/-- Embeds `pac_start`: the `'P'` tile when present, else `(14,23)` (the shipped
maze has no `'P'`). -/
def pac_start : Int × Int :=
  match (List.range MAZE.length).flatMap (fun y =>
    (List.range ((MAZE.getD y ("")).length)).filterMap (fun x =>
      if (MAZE.getD y ("")).toList.getD x '#' == 'P'
      then some ((Int.ofNat x, Int.ofNat y)) else none)) with
  | p :: _ => p
  | [] => (14, 23)

/-- The pellet set produced by the initial level-setup passes (lines
108-113 and 121-125): every `'.'` tile, plus every `' '` tile outside the
ghost box `10 <= x <= 17 and 11 <= y <= 16`.  Sets of tiles are modelled
as boolean characteristic functions over the scanned grid positions. -/
def initialPellets (x y : Int) : Bool :=
  in_bounds x y &&
    (mazeChar x y == '.' ||
     (mazeChar x y == ' ' &&
      !(decide (10 ≤ x) && decide (x ≤ 17) && decide (11 ≤ y) && decide (y ≤ 16))))

/-- The pellet set built by `reset_level`: exactly the `'.'` tiles. -/
def resetPellets (x y : Int) : Bool :=
  in_bounds x y && mazeChar x y == '.'

/-- The power-pellet set built by `reset_level` (and by the initial load):
exactly the `'o'` tiles. -/
def resetPowerPellets (x y : Int) : Bool :=
  in_bounds x y && mazeChar x y == 'o'

/-- Embeds `reset_level()`: rebuilds both item sets from scratch from the `'.'`
and `'o'` characters, discarding whatever the sets held before. -/
def reset_level (_old : (Int → Int → Bool) × (Int → Int → Bool)) :
    (Int → Int → Bool) × (Int → Int → Bool) :=
  (resetPellets, resetPowerPellets)

/-- The whole-game collision state: the player, the ghost list (in identity
order, aligned with `ghost_starts`), and the global
`ghosts_eaten_in_power` counter. -/
structure GameState where
  player : Pacman
  ghosts : List Ghost
  ghosts_eaten_in_power : Int
deriving DecidableEq

/-- Embeds `trigger_fright()`: reset the eaten-in-window counter to 0 and force
every non-dead ghost into frightened with a full timer. -/
def trigger_fright (s : GameState) : GameState :=
  { s with
    ghosts_eaten_in_power := 0
    ghosts := s.ghosts.map (fun g =>
      if g.dead = false
      then { g with mode := Mode.frightened, fright_timer := FRIGHT_DURATION }
      else g) }

/-- The proximity test of `check_collisions`:
`math.hypot(player.px-g.px, player.py-g.py) < TILE*0.6`, embedded in the
exact squared form (`TILE*0.6` is the rational `3*TILE/5`; the threshold is
positive, so the two forms agree by `hypot_lt_iff_sq`). -/
def close_hit (TILE : Int) (p g : Mover) : Bool :=
  decide ((p.px - g.px) ^ 2 + (p.py - g.py) ^ 2 < (3 * (TILE : ℚ) / 5) ^ 2)

/-- Embeds `score_table = [200,400,800,1600]`. -/
def score_table : List Int := [200, 400, 800, 1600]

/-- The death-branch reset applied to ghost `gg` with start tile `st`
(`ghost_starts[i]`): pixels and tile to the start tile center, direction
cleared, transit and warp state cleared, mode scatter, dead cleared,
frightened timer zero. -/
def resetGhost (TILE OX OY : Int) (gg : Ghost) (st : Int × Int) : Ghost :=
  { gg with
    px := ((tile_center_pixel TILE OX OY st.1 st.2).1 : ℚ)
    py := ((tile_center_pixel TILE OX OY st.1 st.2).2 : ℚ)
    tx := st.1
    ty := st.2
    dx := 0
    dy := 0
    moving := false
    warping := false
    warp_target := none
    mode := Mode.scatter
    dead := false
    fright_timer := 0 }

/-- The death branch's `for i,gg in enumerate(ghosts)` reset loop, pairing
the current ghost list positionally with `ghost_starts`. -/
def resetAllGhosts (TILE OX OY : Int) (gs : List Ghost) : List Ghost :=
  List.zipWith (resetGhost TILE OX OY) gs ghost_starts

/-- The `for g in ghosts` scan of `check_collisions`: `processed` is the
already-scanned prefix (with any eat effects applied), `rest` the ghosts
still to scan.  A frightened non-dead hit awards
`score_table[min(counter,3)]`, increments the counter, turns the ghost to
eyes and continues; a non-eyes non-dead hit resolves the death (decrement
a life, reset every ghost positionally) and breaks; any other ghost is
passed over.  (The counter is never negative in the game, so the
nonnegative `min(counter,3)` list index matches Python's indexing.) -/
def collideLoop (TILE OX OY : Int) (pl : Pacman) (counter : Int)
    (processed rest : List Ghost) : Pacman × Int × List Ghost :=
  match rest with
  | [] => (pl, counter, processed)
  | g :: gs =>
    if close_hit TILE pl.toMover g.toMover then
      if g.mode = Mode.frightened ∧ g.dead = false then
        collideLoop TILE OX OY
          { pl with score := pl.score + score_table.getD (min counter 3).toNat 0 }
          (counter + 1) (processed ++ [kill_and_become_eyes g]) gs
      else if g.mode ≠ Mode.eyes ∧ g.dead = false then
        (Pacman.die pl, counter, resetAllGhosts TILE OX OY (processed ++ g :: gs))
      else
        collideLoop TILE OX OY pl counter (processed ++ [g]) gs
    else
      collideLoop TILE OX OY pl counter (processed ++ [g]) gs

/-- Embeds `check_collisions()`: a no-op while the player is not alive, else the
ghost scan starting from an empty prefix. -/
def check_collisions (TILE OX OY : Int) (s : GameState) : GameState :=
  if s.player.alive = false then s
  else
    let r := collideLoop TILE OX OY s.player s.ghosts_eaten_in_power [] s.ghosts
    { player := r.1, ghosts_eaten_in_power := r.2.1, ghosts := r.2.2 }

/-- Embeds `Pacman.__init__(tile)`: a fresh mover at the tile with lives 3,
score 0, alive, respawn timer 0, speed 2.6. -/
def Pacman.make (TILE OX OY : Int) (tile : Int × Int) : Pacman :=
  { toMover := { Mover.make TILE OX OY tile with speed := 13 / 5 }
    lives := 3
    score := 0
    alive := true
    respawn_timer := 0 }

/-- Embeds `Ghost.__init__(tile, idx)`: a fresh mover at the tile in scatter mode,
not dead, frightened timer 0, the four fixed per-mode speeds, and the start
tile recorded. -/
def Ghost.make (TILE OX OY : Int) (tile : Int × Int) (idx : Nat) : Ghost :=
  { toMover := Mover.make TILE OX OY tile
    idx := idx
    mode := Mode.scatter
    dead := false
    fright_timer := 0
    speed_chase := 8 / 5
    speed_scatter := 7 / 5
    speed_fright := 1
    speed_eyes := 16 / 5
    start_tile := tile }

/-- Proof bookkeeping for the best/bestd loop: the first minimizer of `f`
on `b :: l`, folded left with a strict comparison (so ties keep the
earlier element). -/
def specMin (f : Int × Int → Int) (b : Int × Int) : List (Int × Int) → Int × Int
  | [] => b
  | c :: rest => if f c < f b then specMin f c rest else specMin f b rest

/-- Concrete ghost for evaluating the direction-choice algorithm: idle at
the open tile (1,1) (open neighbors to the right and below only). -/
def gW : Ghost := Ghost.make 24 0 0 (1, 1) 0

/-- Concrete mover one pixel short of the tunnel-exit warp on row 14:
at tile (27,14) moving right with warp target (0,14), pixel position 683
(the pixel target, the center of the off-grid tile (28,14) with TILE 24 and
zero offsets, is 684). -/
def m6 : Mover :=
  { tx := 27, ty := 14, px := 683, py := 348, dx := 1, dy := 0,
    next_dx := 0, next_dy := 0, moving := true, speed := 11 / 5,
    warping := true, warp_target := some (0, 14) }

/-- Concrete mid-transit ghost: in transit out of tile (1,1) moving right,
pixel position 5 pixels past the tile center (36,36). -/
def g8 : Ghost :=
  { Ghost.make 24 0 0 (1, 1) 0 with moving := true, dx := 1, px := 41 }

/-- Concrete frightened ghost one tick from fright expiry. -/
def g4 : Ghost :=
  { Ghost.make 24 0 0 (13, 14) 0 with mode := Mode.frightened, fright_timer := 1 }

/-- Concrete player at the center of tile (1,1). -/
def plW : Pacman := Pacman.make 24 0 0 (1, 1)

/-- Concrete frightened ghost co-located with `plW`. -/
def gFrW : Ghost :=
  { Ghost.make 24 0 0 (1, 1) 0 with mode := Mode.frightened, fright_timer := 50 }

/-- Concrete scatter-mode ghost co-located with `plW`. -/
def gScW : Ghost := Ghost.make 24 0 0 (1, 1) 1

/-- Concrete ghosts far away from `plW`. -/
def gFar1 : Ghost := Ghost.make 24 0 0 (26, 29) 2

/-- Concrete ghost far away from `plW`. -/
def gFar2 : Ghost := Ghost.make 24 0 0 (26, 29) 3

/-- Concrete collision state: the player within the proximity threshold of
both a frightened ghost (scanned first) and a scatter-mode ghost (scanned
second), the other two ghosts far away. -/
def s5 : GameState :=
  { player := plW, ghosts := [gFrW, gScW, gFar1, gFar2], ghosts_eaten_in_power := 0 }

/-- Concrete idle mover at the center of tile (1,1). -/
def m7 : Mover := Mover.make 24 0 0 (1, 1)

/-- Justification for the squared embedding of threshold tests: for a
positive rational bound, `math.hypot(a,b) < c` is exactly `a^2+b^2 < c^2`. -/
theorem hypot_lt_iff_sq (a b c : ℚ) (hc : 0 < c) :
    Real.sqrt (((a : ℝ)) ^ 2 + ((b : ℝ)) ^ 2) < (c : ℝ) ↔ a ^ 2 + b ^ 2 < c ^ 2 := by
  have hcr : (0 : ℝ) < (c : ℝ) := by exact_mod_cast hc
  rw [Real.sqrt_lt' hcr]
  constructor
  · intro h
    exact_mod_cast h
  · intro h
    exact_mod_cast h

/-- Claim C7: `tryStartMove` commits to transit and succeeds when the
destination tile is Open; when the destination is not Open it wraps (with
the x-mod-width tile as warp target) exactly when the move is horizontal
and the wrapped tile is Open; in every other case it fails leaving the
mover unchanged; and a vertical move never creates a wrap. -/
theorem start_move_cases (m : Mover) (dx dy : Int) :
    (is_open (m.tx + dx) (m.ty + dy) = true →
      start_move m dx dy =
        (true, { m with dx := dx, dy := dy, moving := true,
                        warping := false, warp_target := none })) ∧
    (is_open (m.tx + dx) (m.ty + dy) = false → dy = 0 →
      is_open ((m.tx + dx) % MAZE_W) (m.ty + dy) = true →
      start_move m dx dy =
        (true, { m with dx := dx, dy := dy, moving := true, warping := true,
                        warp_target := some ((m.tx + dx) % MAZE_W, m.ty + dy) })) ∧
    (is_open (m.tx + dx) (m.ty + dy) = false →
      (dy ≠ 0 ∨ is_open ((m.tx + dx) % MAZE_W) (m.ty + dy) = false) →
      start_move m dx dy = (false, m)) ∧
    (dy ≠ 0 → (start_move m dx dy).2.warping = true → m.warping = true) := by
  refine ⟨?_, ?_, ?_, ?_⟩
  · intro h
    simp [start_move, h]
  · intro h h0 hw
    subst h0
    simp only [add_zero] at h hw
    simp [start_move, h, hw]
  · intro h hor
    rcases hor with hd | hw
    · simp [start_move, h, hd]
    · by_cases hd : dy = 0
      · subst hd
        simp only [add_zero] at h hw
        simp [start_move, h, hw]
      · simp [start_move, h, hd]
  · intro hd hw2
    by_cases h : is_open (m.tx + dx) (m.ty + dy) = true
    · simp [start_move, h] at hw2
    · rw [Bool.not_eq_true] at h
      simp [start_move, h, hd] at hw2
      exact hw2

/-- Witness for C7 on the shipped maze: from the center of tile (1,1),
moving right into the open tile (2,1) commits a normal transit, and a
vertical move never sets the warp flag. -/
theorem start_move_cases_witness :
    is_open (m7.tx + 1) (m7.ty + 0) = true ∧
    start_move m7 1 0 =
      (true, { m7 with dx := 1, dy := 0, moving := true,
                       warping := false, warp_target := none }) ∧
    ((start_move m7 0 1).2.warping = true → m7.warping = true) :=
  ⟨by decide, (start_move_cases m7 1 0).1 (by decide),
   (start_move_cases m7 0 1).2.2.2 (by decide)⟩

/-- Claim C9: when the countdown reaches zero at the final sequence entry
(index 7, the 9999-second chase), the cursor advances modulo the sequence
length back to index 0, whose mode is scatter, with a fresh 7-second
timer; in general the cursor always advances modulo the length. -/
theorem mode_cursor_wraps (i : Nat) (t : Int) (ht : t ≤ 1) :
    modeTimerStep 7 t = (0, 7 * FPS) ∧
    schedulerMode 0 = Mode.scatter ∧
    MODE_SEQUENCE.getD 7 (Mode.chase, 0) = (Mode.chase, 9999) ∧
    (modeTimerStep i t).1 = (i + 1) % MODE_SEQUENCE.length := by
  have h1 : t - 1 ≤ 0 := by omega
  refine ⟨?_, by decide, by decide, ?_⟩
  · simp only [modeTimerStep]
    rw [if_pos h1]
    decide
  · simp only [modeTimerStep]
    rw [if_pos h1]

/-- Witness for C9: the concrete wrap step at timer value 1. -/
theorem mode_cursor_wraps_witness :
    modeTimerStep 7 1 = (0, 7 * FPS) ∧
    (modeTimerStep 3 1).1 = (3 + 1) % MODE_SEQUENCE.length :=
  ⟨(mode_cursor_wraps 3 1 (le_refl 1)).1,
   (mode_cursor_wraps 3 1 (le_refl 1)).2.2.2⟩

/-- Claim C10: `reset_level` rebuilds the item sets from the `'.'` and
`'o'` characters only, discarding whatever was there before (in particular
the blank-tile pellets of the initial load, which precede the startup
`reset_level()` call); blank tiles are never in the rebuilt sets; and
tile (0,14) is a blank tile that the initial load did pellet. -/
theorem reset_level_blank_free (old : (Int → Int → Bool) × (Int → Int → Bool)) :
    reset_level old = (resetPellets, resetPowerPellets) ∧
    (∀ x y : Int, mazeChar x y = ' ' →
      resetPellets x y = false ∧ resetPowerPellets x y = false) ∧
    (∀ x y : Int, resetPellets x y = true → mazeChar x y = '.') ∧
    initialPellets 0 14 = true ∧ resetPellets 0 14 = false ∧
    mazeChar 0 14 = ' ' := by
  refine ⟨rfl, ?_, ?_, by decide, by decide, by decide⟩
  · intro x y h
    have h1 : (' ' == '.') = false := by decide
    have h2 : (' ' == 'o') = false := by decide
    constructor
    · simp [resetPellets, h, h1]
    · simp [resetPowerPellets, h, h2]
  · intro x y h
    simp only [resetPellets, Bool.and_eq_true, beq_iff_eq] at h
    exact h.2

/-- Witness for C10: the blank tunnel tile (0,14) is pellet-free after
`reset_level`, and the `'.'` tile (1,1) is characterized. -/
theorem reset_level_blank_free_witness :
    resetPellets 0 14 = false ∧ resetPowerPellets 0 14 = false ∧
    mazeChar 1 1 = '.' :=
  ⟨((reset_level_blank_free (resetPellets, resetPowerPellets)).2.1 0 14 (by decide)).1,
   ((reset_level_blank_free (resetPellets, resetPowerPellets)).2.1 0 14 (by decide)).2,
   (reset_level_blank_free (resetPellets, resetPowerPellets)).2.2.1 1 1 (by decide)⟩

/-- Counterexample to claim C4: a frightened, not-dead ghost whose timer
expires gets the hard-coded mode chase, even though the scheduler cursor
(here at index 2) currently designates scatter. -/
theorem fright_expiry_counterexample :
    g4.mode = Mode.frightened ∧ g4.dead = false ∧ g4.fright_timer = 1 ∧
    schedulerMode 2 = Mode.scatter ∧
    (update_fright g4).mode = Mode.chase ∧
    (update_fright g4).mode ≠ schedulerMode 2 := by decide

/-- Claim C4 as amended: when a frightened, not-dead pursuer's timer
expires on its own, its mode becomes chase unconditionally — a fixed mode
independent of the scheduler's cursor. -/
theorem fright_expiry_is_chase (g : Ghost) (hm : g.mode = Mode.frightened)
    (hd : g.dead = false) (ht : g.fright_timer ≤ 1) :
    (update_fright g).mode = Mode.chase ∧
    (update_fright g).fright_timer = g.fright_timer - 1 := by
  have h1 : g.fright_timer - 1 ≤ 0 := by omega
  simp [update_fright, hm, hd, h1]

/-- Witness for the amended C4. -/
theorem fright_expiry_is_chase_witness :
    g4.fright_timer ≤ 1 ∧ (update_fright g4).mode = Mode.chase :=
  ⟨by decide, (fright_expiry_is_chase g4 rfl rfl (by decide)).1⟩

/-- Counterexample to claim C8: `kill_and_become_eyes` on a mid-transit
ghost clears the transit flag but leaves the pixel position unchanged, so
the ghost ends up idle with its pixel 5 pixels away from its tile center
(the `at_center` test fails). -/
theorem kill_mid_transit_counterexample :
    g8.moving = true ∧
    (kill_and_become_eyes g8).moving = false ∧
    at_center 24 0 0 (kill_and_become_eyes g8).toMover = false := by
  refine ⟨rfl, rfl, ?_⟩
  norm_num [at_center, kill_and_become_eyes, g8, Ghost.make, Mover.make,
    tile_center_pixel]

/-- Claim C8 as amended: a mover is always exactly one of idle or
in-transit (the single `moving` flag), and a normal arrival snaps the
pixel position exactly to the destination tile center; but
`kill_and_become_eyes` clears the transit flag without touching the pixel
position, so a pursuer eaten mid-transit is left idle away from its tile
center. -/
theorem kill_and_become_eyes_pixels (g : Ghost) (TILE OX OY : Int) (m : Mover) :
    (kill_and_become_eyes g).moving = false ∧
    (kill_and_become_eyes g).px = g.px ∧ (kill_and_become_eyes g).py = g.py ∧
    (kill_and_become_eyes g).tx = g.tx ∧ (kill_and_become_eyes g).ty = g.ty ∧
    (kill_and_become_eyes g).mode = Mode.eyes ∧
    (kill_and_become_eyes g).dead = true ∧
    (arrive_normal_state TILE OX OY m).px = (pixel_target TILE OX OY m).1 ∧
    (arrive_normal_state TILE OX OY m).py = (pixel_target TILE OX OY m).2 ∧
    (arrive_normal_state TILE OX OY m).moving = false :=
  ⟨rfl, rfl, rfl, rfl, rfl, rfl, rfl, rfl, rfl, rfl⟩

/-- Claim C2: a power pickup (`trigger_fright`) resets the eaten-in-window
counter to 0, and when the scan reaches a frightened, not-dead ghost within
the proximity threshold it awards `score_table[min(counter,3)]` with
`score_table = [200,400,800,1600]`, increments the counter, and turns that
ghost to eyes (continuing the scan with the remaining ghosts). -/
theorem fright_window_scoring (TILE OX OY : Int) (s : GameState) (pl : Pacman)
    (n : Int) (processed gs : List Ghost) (g : Ghost)
    (hclose : close_hit TILE pl.toMover g.toMover = true)
    (hfr : g.mode = Mode.frightened) (hdead : g.dead = false) :
    (trigger_fright s).ghosts_eaten_in_power = 0 ∧
    score_table = [200, 400, 800, 1600] ∧
    collideLoop TILE OX OY pl n processed (g :: gs)
      = collideLoop TILE OX OY
          { pl with score := pl.score + score_table.getD (min n 3).toNat 0 }
          (n + 1) (processed ++ [kill_and_become_eyes g]) gs ∧
    (kill_and_become_eyes g).mode = Mode.eyes ∧
    (kill_and_become_eyes g).dead = true := by
  refine ⟨rfl, rfl, ?_, rfl, rfl⟩
  simp [collideLoop, hclose, hfr, hdead]

/-- Witness for C2: the player co-located with a frightened ghost, counter
0: eating awards 200, increments the counter to 1, and the ghost becomes
eyes; `trigger_fright` zeroes the counter. -/
theorem fright_window_scoring_witness :
    close_hit 24 plW.toMover gFrW.toMover = true ∧
    (trigger_fright s5).ghosts_eaten_in_power = 0 ∧
    collideLoop 24 0 0 plW 0 [] [gFrW]
      = collideLoop 24 0 0
          { plW with score := plW.score + score_table.getD (min (0 : Int) 3).toNat 0 }
          (0 + 1) ([] ++ [kill_and_become_eyes gFrW]) [] ∧
    (kill_and_become_eyes gFrW).mode = Mode.eyes := by
  have hclose : close_hit 24 plW.toMover gFrW.toMover = true := by
    norm_num [close_hit, plW, gFrW, Pacman.make, Ghost.make, Mover.make,
      tile_center_pixel]
  exact ⟨hclose,
    (fright_window_scoring 24 0 0 s5 plW 0 [] [] gFrW hclose rfl rfl).1,
    (fright_window_scoring 24 0 0 s5 plW 0 [] [] gFrW hclose rfl rfl).2.2.1,
    (fright_window_scoring 24 0 0 s5 plW 0 [] [] gFrW hclose rfl rfl).2.2.2.1⟩

/-- Claim C3: when the scan reaches a ghost within the proximity threshold
that is neither frightened nor eyes (and not dead), the player dies —
exactly one life is lost — and every ghost in the list (already-scanned
prefix included, whatever its state) is positionally reset to its
`ghost_starts` tile: tile and pixels to the start center, direction
cleared, transit and warp state cleared, mode scatter, captured flag
cleared, frightened timer 0. -/
theorem death_resets_all (TILE OX OY : Int) (pl : Pacman) (n : Int)
    (processed gs : List Ghost) (g : Ghost)
    (hclose : close_hit TILE pl.toMover g.toMover = true)
    (hdead : g.dead = false) (hfr : g.mode ≠ Mode.frightened)
    (hey : g.mode ≠ Mode.eyes) :
    collideLoop TILE OX OY pl n processed (g :: gs)
      = (Pacman.die pl, n, resetAllGhosts TILE OX OY (processed ++ g :: gs)) ∧
    (Pacman.die pl).lives = pl.lives - 1 ∧
    (Pacman.die pl).alive = false ∧
    resetAllGhosts TILE OX OY (processed ++ g :: gs)
      = List.zipWith (resetGhost TILE OX OY) (processed ++ g :: gs) ghost_starts ∧
    ∀ (gg : Ghost) (st : Int × Int),
      (resetGhost TILE OX OY gg st).tx = st.1 ∧
      (resetGhost TILE OX OY gg st).ty = st.2 ∧
      (resetGhost TILE OX OY gg st).px
        = ((tile_center_pixel TILE OX OY st.1 st.2).1 : ℚ) ∧
      (resetGhost TILE OX OY gg st).py
        = ((tile_center_pixel TILE OX OY st.1 st.2).2 : ℚ) ∧
      (resetGhost TILE OX OY gg st).dx = 0 ∧
      (resetGhost TILE OX OY gg st).dy = 0 ∧
      (resetGhost TILE OX OY gg st).moving = false ∧
      (resetGhost TILE OX OY gg st).warping = false ∧
      (resetGhost TILE OX OY gg st).warp_target = none ∧
      (resetGhost TILE OX OY gg st).mode = Mode.scatter ∧
      (resetGhost TILE OX OY gg st).dead = false ∧
      (resetGhost TILE OX OY gg st).fright_timer = 0 := by
  refine ⟨?_, rfl, rfl, rfl, ?_⟩
  · simp [collideLoop, hclose, hfr, hey, hdead]
  · intro gg st
    exact ⟨rfl, rfl, rfl, rfl, rfl, rfl, rfl, rfl, rfl, rfl, rfl, rfl⟩

/-- Witness for C3: the player co-located with a scatter-mode ghost: the
death branch fires, one life is lost, the ghost list is positionally
reset. -/
theorem death_resets_all_witness :
    close_hit 24 plW.toMover gScW.toMover = true ∧
    collideLoop 24 0 0 plW 0 [] [gScW]
      = (Pacman.die plW, 0, resetAllGhosts 24 0 0 ([] ++ gScW :: [])) ∧
    (Pacman.die plW).lives = plW.lives - 1 := by
  have hclose : close_hit 24 plW.toMover gScW.toMover = true := by
    norm_num [close_hit, plW, gScW, Pacman.make, Ghost.make, Mover.make,
      tile_center_pixel]
  exact ⟨hclose,
    (death_resets_all 24 0 0 plW 0 [] [] gScW hclose rfl (by decide) (by decide)).1,
    (death_resets_all 24 0 0 plW 0 [] [] gScW hclose rfl (by decide) (by decide)).2.1⟩

/-- Counterexample to claim C5: in state `s5` a single `check_collisions`
tick both awards 200 eat points (for the frightened first ghost) and
resolves a player death (at the scatter-mode second ghost): eat and death
are not mutually exclusive within one tick. -/
theorem eat_and_death_same_tick_counterexample :
    (check_collisions 24 0 0 s5).player.score = s5.player.score + 200 ∧
    (check_collisions 24 0 0 s5).player.lives = s5.player.lives - 1 := by
  have h1 : close_hit 24 plW.toMover gFrW.toMover = true := by
    norm_num [close_hit, plW, gFrW, Pacman.make, Ghost.make, Mover.make,
      tile_center_pixel]
  have h2 : close_hit 24 ({ plW with score := plW.score + 200 } : Pacman).toMover
      gScW.toMover = true := by
    norm_num [close_hit, plW, gScW, Pacman.make, Ghost.make, Mover.make,
      tile_center_pixel]
  have e1 : collideLoop 24 0 0 plW 0 [] [gFrW, gScW, gFar1, gFar2]
      = collideLoop 24 0 0 { plW with score := plW.score + 200 } 1
          [kill_and_become_eyes gFrW] [gScW, gFar1, gFar2] := by
    have hm : gFrW.mode = Mode.frightened := rfl
    have hd : gFrW.dead = false := rfl
    simp [collideLoop, h1, hm, hd, score_table]
  have e2 : collideLoop 24 0 0 { plW with score := plW.score + 200 } 1
        [kill_and_become_eyes gFrW] [gScW, gFar1, gFar2]
      = (Pacman.die { plW with score := plW.score + 200 }, 1,
         resetAllGhosts 24 0 0
           ([kill_and_become_eyes gFrW] ++ gScW :: [gFar1, gFar2])) := by
    have hm : gScW.mode = Mode.scatter := rfl
    have hd : gScW.dead = false := rfl
    simp [collideLoop, h2, hm, hd]
  constructor
  · show (check_collisions 24 0 0 s5).player.score = s5.player.score + 200
    simp only [check_collisions]
    rw [if_neg (by simp [s5, plW, Pacman.make, Mover.make])]
    simp only [s5]
    simp only [e1, e2]
    simp [Pacman.die, plW, Pacman.make]
  · show (check_collisions 24 0 0 s5).player.lives = s5.player.lives - 1
    simp only [check_collisions]
    rw [if_neg (by simp [s5, plW, Pacman.make, Mover.make])]
    simp only [s5]
    simp only [e1, e2]
    simp [Pacman.die, plW, Pacman.make]

/-- Claim C5 as amended: once the scan resolves a death, no further ghost
is examined — the result is the death tuple for every tail, the counter is
final, and the death branch itself does not change the score (so eat
points already awarded earlier in the same tick's scan stand). -/
theorem death_stops_scan (TILE OX OY : Int) (pl : Pacman) (n : Int)
    (processed : List Ghost) (g : Ghost)
    (hclose : close_hit TILE pl.toMover g.toMover = true)
    (hdead : g.dead = false) (hfr : g.mode ≠ Mode.frightened)
    (hey : g.mode ≠ Mode.eyes) :
    (∀ gs : List Ghost,
      collideLoop TILE OX OY pl n processed (g :: gs)
        = (Pacman.die pl, n, resetAllGhosts TILE OX OY (processed ++ g :: gs))) ∧
    (∀ gs : List Ghost,
      (collideLoop TILE OX OY pl n processed (g :: gs)).2.1 = n) ∧
    (Pacman.die pl).score = pl.score := by
  have key : ∀ gs : List Ghost,
      collideLoop TILE OX OY pl n processed (g :: gs)
        = (Pacman.die pl, n, resetAllGhosts TILE OX OY (processed ++ g :: gs)) := by
    intro gs
    simp [collideLoop, hclose, hfr, hey, hdead]
  exact ⟨key, fun gs => by rw [key gs], rfl⟩

/-- Witness for the amended C5. -/
theorem death_stops_scan_witness :
    close_hit 24 plW.toMover gScW.toMover = true ∧
    collideLoop 24 0 0 plW 5 [] [gScW, gFar1]
      = (Pacman.die plW, 5, resetAllGhosts 24 0 0 ([] ++ gScW :: [gFar1])) ∧
    (Pacman.die plW).score = plW.score := by
  have hclose : close_hit 24 plW.toMover gScW.toMover = true := by
    norm_num [close_hit, plW, gScW, Pacman.make, Ghost.make, Mover.make,
      tile_center_pixel]
  exact ⟨hclose,
    (death_stops_scan 24 0 0 plW 5 [] gScW hclose rfl (by decide) (by decide)).1 [gFar1],
    (death_stops_scan 24 0 0 plW 5 [] gScW hclose rfl (by decide) (by decide)).2.2⟩

/-- Claim C6: when a mover arrives while a warp target is set, the step is
exactly: snap tile and pixels to the warp target's center, clear warp state
and the transit flag, then re-invoke `start_move` with the same direction
(this is the unique successor state); when the tile beyond the warp target
in that direction is open, the mover is therefore in transit again at the
end of the very same update — same direction, no idle tick. -/
theorem warp_arrival_is_fluid (TILE OX OY : Int) (m : Mover) (w : Int × Int)
    (hm : m.moving = true) (hw : m.warping = true) (ht : m.warp_target = some w)
    (ha : arrived TILE OX OY m) :
    update_position_pixels TILE OX OY m (warp_arrive_state TILE OX OY m w) ∧
    (∀ mv, update_position_pixels TILE OX OY m mv →
      mv = warp_arrive_state TILE OX OY m w) ∧
    warp_arrive_state TILE OX OY m w
      = (start_move (warp_snap TILE OX OY m w) m.dx m.dy).2 ∧
    (warp_snap TILE OX OY m w).tx = w.1 ∧
    (warp_snap TILE OX OY m w).ty = w.2 ∧
    (warp_snap TILE OX OY m w).px
      = ((tile_center_pixel TILE OX OY w.1 w.2).1 : ℚ) ∧
    (warp_snap TILE OX OY m w).py
      = ((tile_center_pixel TILE OX OY w.1 w.2).2 : ℚ) ∧
    (warp_snap TILE OX OY m w).warping = false ∧
    (warp_snap TILE OX OY m w).warp_target = none ∧
    (is_open (w.1 + m.dx) (w.2 + m.dy) = true →
      (warp_arrive_state TILE OX OY m w).moving = true ∧
      (warp_arrive_state TILE OX OY m w).dx = m.dx ∧
      (warp_arrive_state TILE OX OY m w).dy = m.dy ∧
      (warp_arrive_state TILE OX OY m w).tx = w.1 ∧
      (warp_arrive_state TILE OX OY m w).ty = w.2 ∧
      (warp_arrive_state TILE OX OY m w).px
        = ((tile_center_pixel TILE OX OY w.1 w.2).1 : ℚ) ∧
      (warp_arrive_state TILE OX OY m w).py
        = ((tile_center_pixel TILE OX OY w.1 w.2).2 : ℚ)) := by
  refine ⟨update_position_pixels.arrive_warp m w hm hw ht ha, ?_, rfl,
    rfl, rfl, rfl, rfl, rfl, rfl, ?_⟩
  · intro mv hstep
    cases hstep with
    | idle h0 => rw [hm] at h0; exact absurd h0 (by simp)
    | arrive_warp w2 hm2 hw2 ht2 ha2 =>
      rw [ht] at ht2
      injection ht2 with hww
      rw [hww]
    | arrive_normal hm2 hg ha2 =>
      have := hg hw
      rw [ht] at this
      exact absurd this (by simp)
    | glide mv2 hm2 hna hgl => exact absurd ha hna
  · intro hopen
    simp [warp_arrive_state, start_move, warp_snap, hopen]

/-- Witness for C6: the concrete tunnel crossing `m6` on row 14 of the
shipped maze — the unique arrival step snaps to (0,14) and immediately
restarts the move right, so the mover exits the opposite edge still moving
right with no idle tick. -/
theorem warp_arrival_is_fluid_witness :
    m6.moving = true ∧ m6.warping = true ∧ m6.warp_target = some (0, 14) ∧
    update_position_pixels 24 0 0 m6 (warp_arrive_state 24 0 0 m6 (0, 14)) ∧
    (warp_arrive_state 24 0 0 m6 (0, 14)).moving = true ∧
    (warp_arrive_state 24 0 0 m6 (0, 14)).dx = 1 ∧
    (warp_arrive_state 24 0 0 m6 (0, 14)).tx = 0 := by
  have hsq : (((pixel_target 24 0 0 m6).1 - m6.px : ℚ) : ℝ) ^ 2 +
      (((pixel_target 24 0 0 m6).2 - m6.py : ℚ) : ℝ) ^ 2 = 1 := by
    norm_num [pixel_target, tile_center_pixel, m6]
  have ha6 : arrived 24 0 0 m6 := by
    unfold arrived
    rw [hsq, Real.sqrt_one]
    norm_num [m6]
  exact ⟨rfl, rfl, rfl,
    (warp_arrival_is_fluid 24 0 0 m6 (0, 14) rfl rfl rfl ha6).1,
    by decide, by decide, by decide⟩

/-- The best/bestd loop started on `some b` with `bestd = f b` computes the
first minimizer of `f` on `b :: l`. -/
theorem chooseLoop_some (f : Int × Int → Int) :
    ∀ (l : List (Int × Int)) (b : Int × Int),
      chooseLoop f l (some b) (f b) = some (specMin f b l) := by
  intro l
  induction l with
  | nil => intro b; rfl
  | cons c rest ih =>
    intro b
    simp only [chooseLoop, specMin]
    by_cases h : f c < f b
    · rw [if_pos h, if_pos h, ih c]
    · rw [if_neg h, if_neg h, ih b]

/-- Helper: `specMin f b l` is an element of `b :: l`. -/
theorem specMin_mem (f : Int × Int → Int) :
    ∀ (l : List (Int × Int)) (b : Int × Int), specMin f b l ∈ b :: l := by
  intro l
  induction l with
  | nil => intro b; simp [specMin]
  | cons c rest ih =>
    intro b
    simp only [specMin]
    by_cases h : f c < f b
    · rw [if_pos h]
      exact List.mem_cons_of_mem b (ih c)
    · rw [if_neg h]
      rcases List.mem_cons.mp (ih b) with h1 | h2
      · rw [h1]; exact List.mem_cons_self _ _
      · exact List.mem_cons_of_mem b (List.mem_cons_of_mem c h2)

/-- Helper: `specMin f b l` minimizes `f` over `b :: l`. -/
theorem specMin_le (f : Int × Int → Int) :
    ∀ (l : List (Int × Int)) (b x : Int × Int),
      x ∈ b :: l → f (specMin f b l) ≤ f x := by
  intro l
  induction l with
  | nil =>
    intro b x hx
    rw [List.mem_singleton] at hx
    rw [hx]
    exact le_refl _
  | cons c rest ih =>
    intro b x hx
    simp only [specMin]
    by_cases h : f c < f b
    · rw [if_pos h]
      rcases List.mem_cons.mp hx with h1 | h2
      · rw [h1]
        calc f (specMin f c rest) ≤ f c := ih c c (List.mem_cons_self c rest)
          _ ≤ f b := le_of_lt h
      · exact ih c x h2
    · rw [if_neg h]
      rcases List.mem_cons.mp hx with h1 | h2
      · rw [h1]
        exact ih b b (List.mem_cons_self b rest)
      · rcases List.mem_cons.mp h2 with h3 | h4
        · rw [h3]
          calc f (specMin f b rest) ≤ f b := ih b b (List.mem_cons_self b rest)
            _ ≤ f c := le_of_not_lt h
        · exact ih b x (List.mem_cons_of_mem b h4)

/-- Helper: `specMin f b l` is the FIRST minimizer: everything strictly before it
in `b :: l` has a strictly larger `f`-value. -/
theorem specMin_first (f : Int × Int → Int) :
    ∀ (l : List (Int × Int)) (b : Int × Int),
      ∃ pre post, b :: l = pre ++ specMin f b l :: post ∧
        ∀ x ∈ pre, f (specMin f b l) < f x := by
  intro l
  induction l with
  | nil =>
    intro b
    exact ⟨[], [], rfl, by simp⟩
  | cons c rest ih =>
    intro b
    simp only [specMin]
    by_cases h : f c < f b
    · rw [if_pos h]
      obtain ⟨pre, post, heq, hlt⟩ := ih c
      refine ⟨b :: pre, post, ?_, ?_⟩
      · rw [List.cons_append, ← heq]
      · intro x hx
        rcases List.mem_cons.mp hx with h1 | h2
        · rw [h1]
          calc f (specMin f c rest) ≤ f c :=
                specMin_le f rest c c (List.mem_cons_self c rest)
            _ < f b := h
        · exact hlt x h2
    · rw [if_neg h]
      obtain ⟨pre, post, heq, hlt⟩ := ih b
      cases pre with
      | nil =>
        simp only [List.nil_append] at heq
        injection heq with h1 h2
        refine ⟨[], c :: rest, ?_, by simp⟩
        simp only [List.nil_append]
        rw [← h1]
      | cons p pre1 =>
        injection heq with h1 h2
        have hmb : f (specMin f b rest) < f b := by
          have := hlt p (List.mem_cons_self p pre1)
          rwa [← h1] at this
        refine ⟨b :: c :: pre1, post, ?_, ?_⟩
        · conv_lhs => rw [h2]
          rfl
        · intro x hx
          rcases List.mem_cons.mp hx with e1 | hx2
          · rw [e1]; exact hmb
          · rcases List.mem_cons.mp hx2 with e2 | hx3
            · rw [e2]
              exact lt_of_lt_of_le hmb (le_of_not_lt h)
            · exact hlt x (List.mem_cons_of_mem p hx3)

/-- Helper: `List.find?` skips a prefix on which the predicate is false. -/
theorem find_skip {α : Type} (p : α → Bool) :
    ∀ (pre rest : List α), (∀ x ∈ pre, p x = false) →
      List.find? p (pre ++ rest) = List.find? p rest := by
  intro pre
  induction pre with
  | nil => intro rest _; rfl
  | cons a l ih =>
    intro rest h
    have ha : p a = false := h a (List.mem_cons_self a l)
    rw [List.cons_append, List.find?_cons_of_neg _ (by simp [ha])]
    exact ih rest (fun x hx => h x (List.mem_cons_of_mem a hx))

/-- Claim C1: at a decision point, `choose_direction_toward` — the routine
used identically for Scatter (corner target), Chase (personality target)
and Eyes (home target) — agrees with the specification-side reference
`specChooseDirection`: enumerate right, left, down, up; exclude the exact
reverse and non-open destinations; pick the earliest squared-distance
minimizer; fall back to the reverse direction exactly when the candidate
set is empty.  The hypothesis bounds the squared distances by the loop's
initial `1e9`, which holds for every target the game ever passes. -/
theorem choose_direction_matches_spec (g : Ghost) (target : Int × Int)
    (hb : ∀ d ∈ (-g.dx, -g.dy) :: ghostCandidates g, distSq g target d < 10 ^ 9) :
    choose_direction_toward g target = specChooseDirection g target := by
  have h9 : (10 : Int) ^ 9 = 1000000000 := by norm_num
  unfold choose_direction_toward specChooseDirection
  cases hc : ghostCandidates g with
  | nil =>
    have hrev : distSq g target (-g.dx, -g.dy) < 10 ^ 9 :=
      hb _ (List.mem_cons_self _ _)
    rw [h9] at hrev
    simp [hc, chooseLoop, hrev, List.find?]
  | cons c rest =>
    have hc1 : distSq g target c < 10 ^ 9 := by
      apply hb
      rw [hc]
      exact List.mem_cons_of_mem _ (List.mem_cons_self c rest)
    rw [h9] at hc1
    simp only [hc]
    rw [if_neg (by simp)]
    have e0 : chooseLoop (distSq g target) (c :: rest) none (10 ^ 9)
        = chooseLoop (distSq g target) rest (some c) (distSq g target c) := by
      simp [chooseLoop, hc1]
    rw [e0, chooseLoop_some (distSq g target) rest c]
    obtain ⟨pre, post, heq, hlt⟩ := specMin_first (distSq g target) rest c
    have hm_min : ∀ y ∈ c :: rest,
        distSq g target (specMin (distSq g target) c rest) ≤ distSq g target y :=
      fun y hy => specMin_le (distSq g target) rest c y hy
    set p : Int × Int → Bool := fun x =>
      decide (∀ y ∈ c :: rest, distSq g target x ≤ distSq g target y) with hp
    have hpre_false : ∀ x ∈ pre, p x = false := by
      intro x hx
      rw [hp]
      simp only [decide_eq_false_iff_not]
      intro hall
      have hmem : specMin (distSq g target) c rest ∈ c :: rest :=
        specMin_mem (distSq g target) rest c
      have h1 := hall _ hmem
      have h2 := hlt x hx
      omega
    have hfind : List.find? p (c :: rest)
        = some (specMin (distSq g target) c rest) := by
      rw [heq, find_skip p pre _ hpre_false,
        List.find?_cons_of_pos _ (by rw [hp]; exact decide_eq_true (hm_min))]
    rw [hfind]

/-- Witness for C1: the concrete ghost `gW` idle at (1,1) aiming at the
top-right corner (27,0): the loop and the specification reference agree
and both pick right, the earliest minimizer among the open, non-reversing
candidates. -/
theorem choose_direction_matches_spec_witness :
    (∀ d ∈ (-gW.dx, -gW.dy) :: ghostCandidates gW, distSq gW (27, 0) d < 10 ^ 9) ∧
    choose_direction_toward gW (27, 0) = specChooseDirection gW (27, 0) ∧
    (choose_direction_toward gW (27, 0)).dx = 1 ∧
    (choose_direction_toward gW (27, 0)).dy = 0 := by
  refine ⟨by decide, choose_direction_matches_spec gW (27, 0) (by decide),
    by decide, by decide⟩

end PacMan
